import Mathlib

/-!
Verification of the CSV Data API (`src/main.py`) against its specification.

The embedding models the in-memory table, the pagination arithmetic of
`get_data`, the filter-then-paginate pipeline of `search_data`, the startup
hook `startup_event`, and the root endpoint `root`.

Cells are modelled as strings, integers, or a missing value (pandas `NaN`);
`cellStr` models `astype(str)` on such cells (a missing cell stringifies to
"nan", matching pandas for object and float columns).  The pandas call
`Series.str.contains(value, case=False, na=False)` compiles `value` as a
Python regular expression with `re.IGNORECASE` and tests `re.search`; the
model covers the fragment of the pattern language consisting of literal
characters and the `.` metacharacter (which matches any character except a
newline), with ASCII case folding.  Patterns using other regex
metacharacters are outside the modelled fragment (`parsePat` returns
`none` on them).
-/

set_option autoImplicit false

namespace CsvApi

/-- A scalar cell of the loaded table: a string, an integer, or missing
(pandas `NaN`, produced for empty cells at load time). -/
inductive Cell where
  | str (s : String)
  | int (n : Int)
  | null
deriving DecidableEq

/-- Model of Python `str()` applied to a cell by `.astype(str)`:
strings are unchanged, integers print in decimal, and a missing value
(`NaN`) prints as the three letters "nan". -/
def cellStr : Cell → String
  | .str s => s
  | .int n => toString n
  | .null => "nan"

/-- A row is a mapping from column name to cell, in column order. -/
abbrev Row := List (String × Cell)

/-- Look up the cell of a row at a column label (pandas row indexing by
label; first matching key).  Rows of a well-formed table carry every
column, so the default branch is unreachable there. -/
def getCell (r : Row) (c : String) : Cell :=
  match r.find? (fun p => p.1 == c) with
  | some p => p.2
  | none => Cell.null

/-- The in-memory dataframe `df_cache`: ordered column names and rows. -/
structure Table where
  columns : List String
  rows : List Row
deriving DecidableEq

/-! ### The modelled regular-expression fragment -/

/-- One atom of a compiled pattern: a literal character or the `.`
metacharacter. -/
inductive Atom where
  | lit (c : Char)
  | dot
deriving DecidableEq

/-- The metacharacters of Python `re` patterns. -/
def metachars : List Char :=
  ['.', '^', '$', '*', '+', '?', '{', '}', '[', ']', '\\', '|', '(', ')']

/-- Whether an atom matches one character: a literal matches itself, `.`
matches any character except a newline (no `re.DOTALL`). -/
def atomMatch : Atom → Char → Bool
  | .lit c, a => c == a
  | .dot, a => !(a == '\n')

/-- Whether the pattern matches some leading segment of the text
(each atom consumes exactly one character). -/
def matchHere : List Atom → List Char → Bool
  | [], _ => true
  | _ :: _, [] => false
  | p :: ps, c :: cs => atomMatch p c && matchHere ps cs

/-- Model of `re.search`: the pattern matches starting at some position of
the text. -/
def psearch (p : List Atom) : List Char → Bool
  | [] => matchHere p []
  | c :: cs => matchHere p (c :: cs) || psearch p cs

/-- Compile a pattern string over the modelled fragment: `.` becomes
`Atom.dot`, a non-metacharacter becomes a (case-folded) literal, and any
other metacharacter is outside the model (`none`). -/
def parsePat : List Char → Option (List Atom)
  | [] => some []
  | c :: cs =>
    if c == '.' then (parsePat cs).map (fun ps => Atom.dot :: ps)
    else if c ∈ metachars then none
    else (parsePat cs).map (fun ps => Atom.lit c.toLower :: ps)

/-- ASCII case folding of a character list. -/
def lowerList (s : List Char) : List Char := s.map Char.toLower

/-- Model of `Series.str.contains(pat, case=False, na=False)` applied to an
already-stringified cell: case-insensitive `re.search` of `pat` in `text`,
over the modelled pattern fragment. -/
def strContainsCI (pat text : String) : Bool :=
  match parsePat pat.data with
  | some p => psearch p (lowerList text.data)
  | none => false

/-! ### Errors and load model -/

/-- Errors raised while loading the data file
(`load_csv_data` in `main.py`). -/
inductive LoadErr where
  | dataSourceNotFound
  | dataParseError
deriving DecidableEq

/-- The outcome of calling `load_csv_data()`. -/
abbrev LoadResult := Except LoadErr Table

/-- The client-visible `HTTPException`s surfaced by the request handlers.
`pageOutOfRange` is the not-found (404) response of the spec's
`PageOutOfRange` taxonomy entry; no handler path of the source actually
surfaces it (see C5).  `readErrorPageOutOfRange` is the catch-all 500
response `"Error reading data: 404: Page {page} not found. Total pages:
{total_pages}"` that `get_data` produces instead when its
`except Exception` clause catches the `HTTPException(404)` raised at
main.py line 194; the constructor records the two numbers embedded in its
detail text. -/
inductive ApiErr where
  | pageOutOfRange (page total_pages : Nat)
  | fileNotFound
  | unknownColumn (requested : String) (available : List String)
  | readErrorPageOutOfRange (page total_pages : Nat)
  | internalError
deriving DecidableEq

/-- The HTTP status code attached to each error. -/
def statusCode : ApiErr → Nat
  | .pageOutOfRange _ _ => 404
  | .fileNotFound => 404
  | .unknownColumn _ _ => 400
  | .readErrorPageOutOfRange _ _ => 500
  | .internalError => 500

instance instDecEqExcept {ε α : Type} [DecidableEq ε] [DecidableEq α] :
    DecidableEq (Except ε α) := fun a b =>
  match a, b with
  | .ok x, .ok y =>
    if h : x = y then .isTrue (by rw [h])
    else .isFalse (fun hc => h (Except.ok.inj hc))
  | .error x, .error y =>
    if h : x = y then .isTrue (by rw [h])
    else .isFalse (fun hc => h (Except.error.inj hc))
  | .ok _, .error _ => .isFalse (fun hc => Except.noConfusion hc)
  | .error _, .ok _ => .isFalse (fun hc => Except.noConfusion hc)

/-- `startup_event` (main.py lines 64-71): attempts the load inside
`try`, and on any exception prints a message and returns normally —
the exception is not re-raised. -/
def startup_event (load : LoadResult) : Except LoadErr Unit :=
  match load with
  | .ok _ => .ok ()
  | .error _ => .ok ()

/-! ### The request handlers -/

/-- Success payload of `GET /data`. -/
structure DataOk where
  page : Nat
  page_size : Nat
  total_records : Nat
  total_pages : Nat
  showing_records : Nat
  data : List Row
deriving DecidableEq

/-- An exception escaping the `try` body of `get_data`: the
`FileNotFoundError` of the load, the `HTTPException(404)` raised at
main.py line 194 for an out-of-range page, or any other load exception
(a parse failure). -/
inductive GetDataExc where
  | fileNotFound
  | httpNotFound (page total_pages : Nat)
  | parseError
deriving DecidableEq

/-- The `try` body of `get_data` (main.py lines 186-217): loads the
table, computes `total_pages = (total_records + page_size - 1) //
page_size`, raises `HTTPException(404)` when the page exceeds it on a
non-empty table, and otherwise returns the row slice
`[start_idx, end_idx)`. -/
def get_data_try (load : LoadResult) (page page_size : Nat) :
    Except GetDataExc DataOk :=
  match load with
  | .error .dataSourceNotFound => .error .fileNotFound
  | .error .dataParseError => .error .parseError
  | .ok df =>
    let total_records := df.rows.length
    let total_pages := (total_records + page_size - 1) / page_size
    if page > total_pages ∧ total_records > 0 then
      .error (.httpNotFound page total_pages)
    else
      let start_idx := (page - 1) * page_size
      let end_idx := min (start_idx + page_size) total_records
      let data := (df.rows.drop start_idx).take (end_idx - start_idx)
      .ok { page := page, page_size := page_size, total_records := total_records,
            total_pages := total_pages, showing_records := data.length, data := data }

/-- `get_data` (main.py lines 144-222): the `try` body followed by the
handler's except chain.  `except FileNotFoundError` (line 219) maps a
missing data file to a 404.  Unlike `search_data`, `get_data` has no
`except HTTPException: raise` clause, so the `HTTPException(404)` raised
at line 194 for an out-of-range page is itself caught by
`except Exception` (line 221) and re-raised as the catch-all
`HTTPException(500, "Error reading data: ...")`, whose detail embeds the
original message (the requested page and the total page count). -/
def get_data (load : LoadResult) (page page_size : Nat) : Except ApiErr DataOk :=
  match get_data_try load page page_size with
  | .ok r => .ok r
  | .error .fileNotFound => .error .fileNotFound
  | .error (.httpNotFound p tp) => .error (.readErrorPageOutOfRange p tp)
  | .error .parseError => .error .internalError

/-- The filter predicate of main.py line 383:
`df[column].astype(str).str.contains(value, case=False, na=False)`. -/
def rowMatches (column value : String) (r : Row) : Bool :=
  strContainsCI value (cellStr (getCell r column))

/-- The filtering stage of `search_data` (main.py line 383): the rows
whose stringified cell at `column` matches `value`. -/
def searchFiltered (t : Table) (column value : String) : List Row :=
  t.rows.filter (rowMatches column value)

/-- Success payload of `GET /search`. -/
structure SearchOk where
  page : Nat
  page_size : Nat
  total_records : Nat
  total_pages : Nat
  showing_records : Nat
  search_column : String
  search_value : String
  data : List Row
deriving DecidableEq

/-- `search_data` (main.py lines 310-410): rejects an unknown column with
a 400 carrying the column list, filters, then paginates the filtered rows.
There is no out-of-range check: the slice of the filtered rows is returned
as a success whatever the requested page.  A load failure of any kind hits
the generic `except Exception` handler (500). -/
def search_data (load : LoadResult) (column value : String) (page page_size : Nat) :
    Except ApiErr SearchOk :=
  match load with
  | .error _ => .error .internalError
  | .ok df =>
    if column ∈ df.columns then
      let filtered := searchFiltered df column value
      let total_records := filtered.length
      let total_pages :=
        if total_records > 0 then (total_records + page_size - 1) / page_size else 0
      let start_idx := (page - 1) * page_size
      let end_idx := min (start_idx + page_size) total_records
      let data := (filtered.drop start_idx).take (end_idx - start_idx)
      .ok { page := page, page_size := page_size, total_records := total_records,
            total_pages := total_pages, showing_records := data.length,
            search_column := column, search_value := value, data := data }
    else
      .error (.unknownColumn column df.columns)

/-- Response of `GET /` (main.py lines 79-99). -/
structure RootResponse where
  message : String
  endpoints : List (String × String)
deriving DecidableEq

/-- `root` (main.py lines 79-99): reads nothing, returns a fixed payload.
It is parameterized by the global `df_cache` state to express that it does
not depend on it. -/
def root (_df_cache : Option Table) : RootResponse :=
  { message := "CSV Data API",
    endpoints := [("/data", "Get paginated data from CSV"),
                  ("/columns", "Get list of columns"),
                  ("/info", "Get dataset information"),
                  ("/search", "Search for specific values in columns")] }

/-- The paths actually routed by the application: the four `@app.get`
decorators of main.py. -/
def appPaths : List String := ["/", "/data", "/columns", "/search"]

/-! ### Spec-side definitions -/

/-- Spec-side predicate, from the spec's words: case-insensitive
containment of `value` within `text` as a plain substring (the value
treated as literal text). -/
def ciContains (value text : String) : Prop :=
  lowerList value.data <:+: lowerList text.data

instance instDecCiContains (v t : String) : Decidable (ciContains v t) :=
  List.decidableInfix _ _

/-! ### Concrete tables used as test inputs -/

/-- The end-to-end example table of the spec (§8). -/
def tjohn : Table :=
  { columns := ["id", "name"],
    rows := [[("id", Cell.int 1), ("name", Cell.str "John Doe")],
             [("id", Cell.int 2), ("name", Cell.str "Jane")],
             [("id", Cell.int 3), ("name", Cell.str "Johnny")]] }

/-- A one-row table whose single cell is the text "abc". -/
def tabc : Table :=
  { columns := ["name"], rows := [[("name", Cell.str "abc")]] }

/-- A one-row table whose single cell is missing. -/
def tnull : Table :=
  { columns := ["name"], rows := [[("name", Cell.null)]] }

/-- A table with a column but no rows. -/
def tempty : Table := { columns := ["name"], rows := [] }

/-! ### Lemmas about the pattern fragment -/

theorem psearch_nil_pat (s : List Char) : psearch [] s = true := by
  cases s <;> simp [psearch, matchHere]

theorem matchHere_lit : ∀ (l s : List Char),
    matchHere (l.map Atom.lit) s = true ↔ l <+: s
  | [], s => by simp [matchHere]
  | _ :: _, [] => by simp [matchHere]
  | c :: cs, a :: as => by
    simp [matchHere, atomMatch, List.cons_prefix_cons, matchHere_lit cs as]

theorem psearch_lit (l s : List Char) :
    psearch (l.map Atom.lit) s = true ↔ l <:+: s := by
  induction s with
  | nil =>
    simp only [psearch, List.infix_nil, matchHere_lit, List.prefix_nil]
  | cons a as ih =>
    simp only [psearch, Bool.or_eq_true, matchHere_lit, ih, List.infix_cons_iff]

theorem parsePat_of_no_meta : ∀ l : List Char, (∀ c ∈ l, c ∉ metachars) →
    parsePat l = some (l.map (fun c => Atom.lit c.toLower))
  | [], _ => rfl
  | c :: cs, h => by
    have hc : c ∉ metachars := h c (by simp)
    have hdot : (c == '.') = false := by
      apply beq_eq_false_iff_ne.mpr
      intro e
      exact hc (by simp [metachars, e])
    simp [parsePat, hdot, hc,
      parsePat_of_no_meta cs (fun x hx => h x (by simp [hx]))]

theorem strContainsCI_of_no_meta (v t : String)
    (h : ∀ c ∈ v.data, c ∉ metachars) :
    (strContainsCI v t = true ↔ ciContains v t) := by
  have hmap : v.data.map (fun c => Atom.lit c.toLower) = (lowerList v.data).map Atom.lit := by
    simp [lowerList, List.map_map]
  rw [strContainsCI, parsePat_of_no_meta v.data h, hmap]
  exact psearch_lit (lowerList v.data) (lowerList t.data)

theorem strContainsCI_empty_val (t : String) : strContainsCI "" t = true := by
  rw [strContainsCI]
  have h : parsePat "".data = some [] := rfl
  rw [h]
  exact psearch_nil_pat _

/-! ### Arithmetic and slicing helpers -/

theorem ceil_eq (n ps : Nat) : (n + ps - 1) / ps = n ⌈/⌉ ps :=
  (Nat.ceilDiv_eq_add_pred_div n ps).symm

theorem le_ceil_mul (n ps : Nat) (h : 0 < ps) : n ≤ (n ⌈/⌉ ps) * ps := by
  have h2 := le_smul_ceilDiv (a := ps) (b := n) h
  simpa [smul_eq_mul, Nat.mul_comm] using h2

theorem searchPages_eq (n ps : Nat) :
    (if n > 0 then (n + ps - 1) / ps else 0) = n ⌈/⌉ ps := by
  by_cases hn : n > 0
  · simp [hn, ceil_eq]
  · have hn0 : n = 0 := by omega
    subst hn0
    simp

theorem slice_eq (l : List Row) (start e : Nat) :
    (l.drop start).take (e - start) = (l.take e).drop start := by
  rcases Nat.le_total start e with h | h
  · rw [List.take_drop, Nat.add_sub_cancel' h]
  · have h1 : e - start = 0 := by omega
    rw [h1, List.take_zero]
    symm
    apply List.drop_eq_nil_of_le
    simp only [List.length_take]
    omega

theorem slice_len (l : List Row) (start ps : Nat) :
    ((l.drop start).take (min (start + ps) l.length - start)).length
      = min ps (l.length - start) := by
  simp only [List.length_take, List.length_drop]
  omega

/-! ### Branch unfoldings of the handlers -/

theorem get_data_try_ok_branch (t : Table) (page ps : Nat)
    (h : ¬ (page > (t.rows.length + ps - 1) / ps ∧ t.rows.length > 0)) :
    get_data_try (.ok t) page ps = .ok
      { page := page, page_size := ps,
        total_records := t.rows.length,
        total_pages := (t.rows.length + ps - 1) / ps,
        showing_records :=
          ((t.rows.drop ((page - 1) * ps)).take
            (min ((page - 1) * ps + ps) t.rows.length - (page - 1) * ps)).length,
        data := (t.rows.drop ((page - 1) * ps)).take
          (min ((page - 1) * ps + ps) t.rows.length - (page - 1) * ps) } := by
  simp only [get_data_try]
  rw [if_neg h]

theorem get_data_ok_branch (t : Table) (page ps : Nat)
    (h : ¬ (page > (t.rows.length + ps - 1) / ps ∧ t.rows.length > 0)) :
    get_data (.ok t) page ps = .ok
      { page := page, page_size := ps,
        total_records := t.rows.length,
        total_pages := (t.rows.length + ps - 1) / ps,
        showing_records :=
          ((t.rows.drop ((page - 1) * ps)).take
            (min ((page - 1) * ps + ps) t.rows.length - (page - 1) * ps)).length,
        data := (t.rows.drop ((page - 1) * ps)).take
          (min ((page - 1) * ps + ps) t.rows.length - (page - 1) * ps) } := by
  simp only [get_data]
  rw [get_data_try_ok_branch t page ps h]

theorem search_data_ok_branch (t : Table) (col v : String) (page ps : Nat)
    (hcol : col ∈ t.columns) :
    search_data (.ok t) col v page ps = .ok
      { page := page, page_size := ps,
        total_records := (searchFiltered t col v).length,
        total_pages :=
          if (searchFiltered t col v).length > 0 then
            ((searchFiltered t col v).length + ps - 1) / ps
          else 0,
        showing_records :=
          (((searchFiltered t col v).drop ((page - 1) * ps)).take
            (min ((page - 1) * ps + ps) (searchFiltered t col v).length
              - (page - 1) * ps)).length,
        search_column := col, search_value := v,
        data := ((searchFiltered t col v).drop ((page - 1) * ps)).take
          (min ((page - 1) * ps + ps) (searchFiltered t col v).length
            - (page - 1) * ps) } := by
  simp only [search_data]
  rw [if_pos hcol]

/-! ### Claims -/

/-- Claim C4: for every table with `totalRecords = N` and every valid
`page`, `pageSize` (`page ≥ 1`, `1 ≤ pageSize ≤ 1000`), the pagination
result satisfies `totalPages = ⌈N / pageSize⌉`, and when
`page ≤ totalPages` also `showingRecords = min(pageSize, N -
(page-1)·pageSize)`, with the returned rows being exactly the slice
`[(page-1)·pageSize, min((page-1)·pageSize + pageSize, N))` of the rows in
original order — for `/data` over the table and for `/search` over the
filtered rows. -/
theorem C4_pagination_formulas (t : Table) (col v : String) (page ps : Nat)
    (_hpage : 1 ≤ page) (_hps1 : 1 ≤ ps) (_hps2 : ps ≤ 1000) :
    (page ≤ t.rows.length ⌈/⌉ ps →
      get_data (.ok t) page ps = .ok
        { page := page, page_size := ps,
          total_records := t.rows.length,
          total_pages := t.rows.length ⌈/⌉ ps,
          showing_records := min ps (t.rows.length - (page - 1) * ps),
          data := (t.rows.take (min ((page - 1) * ps + ps) t.rows.length)).drop
            ((page - 1) * ps) })
    ∧ (col ∈ t.columns → page ≤ (searchFiltered t col v).length ⌈/⌉ ps →
      search_data (.ok t) col v page ps = .ok
        { page := page, page_size := ps,
          total_records := (searchFiltered t col v).length,
          total_pages := (searchFiltered t col v).length ⌈/⌉ ps,
          showing_records :=
            min ps ((searchFiltered t col v).length - (page - 1) * ps),
          search_column := col, search_value := v,
          data := ((searchFiltered t col v).take
            (min ((page - 1) * ps + ps) (searchFiltered t col v).length)).drop
            ((page - 1) * ps) }) := by
  constructor
  · intro hle
    have hcond : ¬ (page > (t.rows.length + ps - 1) / ps ∧ t.rows.length > 0) := by
      rw [ceil_eq]
      omega
    rw [get_data_ok_branch t page ps hcond]
    simp [ceil_eq, slice_len, slice_eq]
    omega
  · intro hcol _hle
    rw [search_data_ok_branch t col v page ps hcol]
    simp [searchPages_eq, slice_len, slice_eq]
    omega

/-- Witness for C4 at the spec's example table, page 1, page size 2, for
both `/data` and `/search` with column "name" and value "john". -/
theorem C4_pagination_formulas_witness :
    get_data (.ok tjohn) 1 2 = .ok
      { page := 1, page_size := 2, total_records := 3, total_pages := 2,
        showing_records := 2,
        data := [[("id", Cell.int 1), ("name", Cell.str "John Doe")],
                 [("id", Cell.int 2), ("name", Cell.str "Jane")]] }
    ∧ search_data (.ok tjohn) "name" "john" 1 2 = .ok
      { page := 1, page_size := 2, total_records := 2, total_pages := 1,
        showing_records := 2, search_column := "name", search_value := "john",
        data := [[("id", Cell.int 1), ("name", Cell.str "John Doe")],
                 [("id", Cell.int 3), ("name", Cell.str "Johnny")]] } :=
  ⟨(C4_pagination_formulas tjohn "name" "john" 1 2 (by decide) (by decide)
      (by decide)).1 (by decide),
   (C4_pagination_formulas tjohn "name" "john" 1 2 (by decide) (by decide)
      (by decide)).2 (by decide) (by decide)⟩

/-- Claim C5 counterexample: page 5 of the three-row example table at
page size 2 (total pages 2) does not fail with a `PageOutOfRange`
not-found error: the `HTTPException(404)` raised inside the `try` block
is caught by `get_data`'s own `except Exception` clause and surfaced as
the catch-all 500 `"Error reading data: ..."`. -/
theorem C5_cex_out_of_range_surfaces_500 :
    get_data (.ok tjohn) 5 2 = .error (.readErrorPageOutOfRange 5 2)
      ∧ get_data (.ok tjohn) 5 2 ≠ .error (.pageOutOfRange 5 2)
      ∧ statusCode (.readErrorPageOutOfRange 5 2) = 500
      ∧ statusCode (.pageOutOfRange 5 2) = 404 :=
  ⟨by rfl, by decide, rfl, rfl⟩

/-- Claim C5 amended: on a non-empty table with `page > totalPages`, the
pagination code does detect the condition and raises `HTTPException(404)`
carrying the requested page and the correct
`totalPages = ⌈totalRecords / pageSize⌉`; but since `get_data` lacks an
`except HTTPException: raise` clause, that exception is caught by its
`except Exception` handler and the operation surfaces the catch-all 500
`"Error reading data: ..."` (still embedding those values in its detail)
rather than a `PageOutOfRange` not-found failure. -/
theorem C5_amended_out_of_range_wrapped (t : Table) (page ps : Nat)
    (_hps1 : 1 ≤ ps) (_hps2 : ps ≤ 1000)
    (hN : 0 < t.rows.length) (hover : t.rows.length ⌈/⌉ ps < page) :
    get_data_try (.ok t) page ps
        = .error (.httpNotFound page (t.rows.length ⌈/⌉ ps))
      ∧ get_data (.ok t) page ps
        = .error (.readErrorPageOutOfRange page (t.rows.length ⌈/⌉ ps))
      ∧ statusCode (.readErrorPageOutOfRange page (t.rows.length ⌈/⌉ ps)) = 500 := by
  have h1 : get_data_try (.ok t) page ps
      = .error (.httpNotFound page (t.rows.length ⌈/⌉ ps)) := by
    simp only [get_data_try]
    rw [if_pos ⟨by rw [ceil_eq]; omega, hN⟩, ceil_eq]
  refine ⟨h1, ?_, rfl⟩
  simp only [get_data]
  rw [h1]

/-- Witness for the amended C5 at page 5, page size 2 of the example
table. -/
theorem C5_amended_out_of_range_wrapped_witness :
    get_data_try (.ok tjohn) 5 2 = .error (.httpNotFound 5 2)
      ∧ get_data (.ok tjohn) 5 2 = .error (.readErrorPageOutOfRange 5 2)
      ∧ statusCode (.readErrorPageOutOfRange 5 2) = 500 :=
  C5_amended_out_of_range_wrapped tjohn 5 2 (by decide) (by decide) (by decide)
    (by decide)

/-- Claim C6: pagination over an empty record set — an empty table for
`/data`, or a search with no matches for `/search` — succeeds for every
page number with `totalPages = 0` and an empty data list, never raising
`PageOutOfRange`. -/
theorem C6_empty_set_paginates (t : Table) (col v : String) (page ps : Nat)
    (hps : 1 ≤ ps) :
    (t.rows = [] →
      get_data (.ok t) page ps = .ok
        { page := page, page_size := ps, total_records := 0, total_pages := 0,
          showing_records := 0, data := [] })
    ∧ (col ∈ t.columns → searchFiltered t col v = [] →
      search_data (.ok t) col v page ps = .ok
        { page := page, page_size := ps, total_records := 0, total_pages := 0,
          showing_records := 0, search_column := col, search_value := v,
          data := [] }) := by
  have hdiv : (ps - 1) / ps = 0 := Nat.div_eq_of_lt (by omega)
  constructor
  · intro hrows
    have hcond : ¬ (page > (t.rows.length + ps - 1) / ps ∧ t.rows.length > 0) := by
      rw [hrows]
      simp
    rw [get_data_ok_branch t page ps hcond, hrows]
    simp [hdiv]
  · intro hcol hfil
    rw [search_data_ok_branch t col v page ps hcol, hfil]
    simp

/-- Witness for C6 on a table with one column and no rows. -/
theorem C6_empty_set_paginates_witness :
    get_data (.ok tempty) 7 3 = .ok
      { page := 7, page_size := 3, total_records := 0, total_pages := 0,
        showing_records := 0, data := [] }
    ∧ search_data (.ok tempty) "name" "x" 7 3 = .ok
      { page := 7, page_size := 3, total_records := 0, total_pages := 0,
        showing_records := 0, search_column := "name", search_value := "x",
        data := [] } :=
  ⟨(C6_empty_set_paginates tempty "name" "x" 7 3 (by decide)).1 rfl,
   (C6_empty_set_paginates tempty "name" "x" 7 3 (by decide)).2 (by decide) rfl⟩

/-- Claim C7: a search on a column that is not in the table's column list
fails with an `UnknownColumn` client error (HTTP 400) carrying the full
list of actual column names, and returns no filtering or pagination
result. -/
theorem C7_unknown_column (t : Table) (col v : String) (page ps : Nat)
    (hcol : col ∉ t.columns) :
    search_data (.ok t) col v page ps = .error (.unknownColumn col t.columns)
      ∧ statusCode (.unknownColumn col t.columns) = 400 := by
  refine ⟨?_, rfl⟩
  simp only [search_data]
  rw [if_neg hcol]

/-- Witness for C7: searching the unknown column "height" on the example
table is rejected with its column list. -/
theorem C7_unknown_column_witness :
    search_data (.ok tjohn) "height" "1" 1 10 =
        .error (.unknownColumn "height" ["id", "name"])
      ∧ statusCode (.unknownColumn "height" ["id", "name"]) = 400 :=
  C7_unknown_column tjohn "height" "1" 1 10 (by decide)

/-- Claim C8: the filtered result of a search is a subsequence of the
table's rows — every returned row is a table row, each row position is
used at most once, relative order is preserved — and a row is in the
result exactly when it is a table row matching the predicate (no limit on
the number of matches at the filtering stage). -/
theorem C8_filter_subsequence (t : Table) (col v : String) (r : Row)
    (_hcol : col ∈ t.columns) :
    List.Sublist (searchFiltered t col v) t.rows
      ∧ (r ∈ searchFiltered t col v ↔ r ∈ t.rows ∧ rowMatches col v r = true) :=
  ⟨List.filter_sublist _, List.mem_filter⟩

/-- Witness for C8 on the example table: the two matches of "john" form a
subsequence of the rows, and the "John Doe" row is a member. -/
theorem C8_filter_subsequence_witness :
    List.Sublist (searchFiltered tjohn "name" "john") tjohn.rows
      ∧ ([("id", Cell.int 1), ("name", Cell.str "John Doe")]
            ∈ searchFiltered tjohn "name" "john"
          ↔ [("id", Cell.int 1), ("name", Cell.str "John Doe")] ∈ tjohn.rows
            ∧ rowMatches "name" "john"
                [("id", Cell.int 1), ("name", Cell.str "John Doe")] = true) :=
  C8_filter_subsequence tjohn "name" "john"
    [("id", Cell.int 1), ("name", Cell.str "John Doe")] (by decide)

/-- Claim C10: the root endpoint is a constant function of the dataset
state, returning the fixed message and four advertised endpoints, and the
advertised "/info" endpoint is not among the paths the application
actually routes. -/
theorem C10_root_constant_info_missing :
    (∀ s1 s2 : Option Table, root s1 = root s2)
      ∧ (root none).message = "CSV Data API"
      ∧ (root none).endpoints.map Prod.fst = ["/data", "/columns", "/info", "/search"]
      ∧ "/info" ∈ (root none).endpoints.map Prod.fst
      ∧ "/info" ∉ appPaths :=
  ⟨fun _ _ => rfl, rfl, rfl, by decide, by decide⟩

/-- Claim C1 counterexample: on the spec's example table, searching
column "name" for "john" yields two matches, hence one total page at page
size 10; yet requesting page 2 returns a success result with an empty data
list instead of failing with `PageOutOfRange`. -/
theorem C1_cex_search_overflow_succeeds :
    search_data (.ok tjohn) "name" "john" 2 10 = .ok
      { page := 2, page_size := 10, total_records := 2, total_pages := 1,
        showing_records := 0, search_column := "name", search_value := "john",
        data := [] } := by rfl

/-- Claim C1 amended: `/search` performs no out-of-range check; when the
requested page exceeds the total page count of a non-empty filtered
result, it returns a success result with an empty data list and
`showing_records = 0` (while still reporting the correct
`total_records` and `total_pages`). -/
theorem C1_amended_search_overflow_succeeds (t : Table) (col v : String)
    (page ps : Nat) (hps : 1 ≤ ps) (hcol : col ∈ t.columns)
    (_hne : 0 < (searchFiltered t col v).length)
    (hover : (searchFiltered t col v).length ⌈/⌉ ps < page) :
    search_data (.ok t) col v page ps = .ok
      { page := page, page_size := ps,
        total_records := (searchFiltered t col v).length,
        total_pages := (searchFiltered t col v).length ⌈/⌉ ps,
        showing_records := 0, search_column := col, search_value := v,
        data := [] } := by
  rw [search_data_ok_branch t col v page ps hcol]
  have hstart : (searchFiltered t col v).length ≤ (page - 1) * ps := by
    have h1 : (searchFiltered t col v).length ⌈/⌉ ps ≤ page - 1 := by omega
    calc (searchFiltered t col v).length
        ≤ ((searchFiltered t col v).length ⌈/⌉ ps) * ps := le_ceil_mul _ _ hps
      _ ≤ (page - 1) * ps := Nat.mul_le_mul_right ps h1
  have htake : min ((page - 1) * ps + ps) (searchFiltered t col v).length
      - (page - 1) * ps = 0 := by omega
  rw [htake]
  simp [searchPages_eq]

/-- Witness for the amended C1: page 3 at page size 1 over the two
matches of "john" (total pages 2) still succeeds, with empty data. -/
theorem C1_amended_search_overflow_succeeds_witness :
    search_data (.ok tjohn) "name" "john" 3 1 = .ok
      { page := 3, page_size := 1, total_records := 2, total_pages := 2,
        showing_records := 0, search_column := "name", search_value := "john",
        data := [] } :=
  C1_amended_search_overflow_succeeds tjohn "name" "john" 3 1 (by decide)
    (by decide) (by decide) (by decide)

/-- Claim C2 counterexample: with search value "." the one-row table whose
cell text is "abc" is matched and returned, although "." is not a
case-insensitive substring of "abc" — the value acts as a regular
expression, not as literal text. -/
theorem C2_cex_value_is_regex :
    searchFiltered tabc "name" "." = [[("name", Cell.str "abc")]]
      ∧ ¬ ciContains "." "abc" :=
  ⟨by rfl, by decide⟩

/-- Claim C2 amended: the filter treats the search value as a Python
regular expression (matched case-insensitively by `re.search`); only for
values containing no regex metacharacter is a row included exactly when
the case-insensitive textual representation of its cell contains the
value as a plain substring. -/
theorem C2_amended_literal_iff_no_meta (t : Table) (col v : String)
    (hmeta : ∀ c ∈ v.data, c ∉ metachars) (_hcol : col ∈ t.columns) :
    searchFiltered t col v
      = t.rows.filter (fun r => decide (ciContains v (cellStr (getCell r col)))) := by
  unfold searchFiltered
  apply List.filter_congr
  intro r _
  unfold rowMatches
  have h := strContainsCI_of_no_meta v (cellStr (getCell r col)) hmeta
  by_cases hc : ciContains v (cellStr (getCell r col))
  · rw [h.mpr hc, decide_eq_true hc]
  · rw [decide_eq_false hc]
    exact Bool.eq_false_iff.mpr (fun hb => hc (h.mp hb))

/-- Witness for the amended C2: "john" has no metacharacter, so on the
example table the code's filter coincides with literal case-insensitive
substring filtering, returning the two expected rows in order. -/
theorem C2_amended_literal_iff_no_meta_witness :
    searchFiltered tjohn "name" "john"
        = tjohn.rows.filter
            (fun r => decide (ciContains "john" (cellStr (getCell r "name"))))
      ∧ searchFiltered tjohn "name" "john"
        = [[("id", Cell.int 1), ("name", Cell.str "John Doe")],
           [("id", Cell.int 3), ("name", Cell.str "Johnny")]] :=
  ⟨C2_amended_literal_iff_no_meta tjohn "name" "john" (by decide) (by decide),
   by rfl⟩

/-- Claim C3 counterexample: a `DataSourceNotFound` failure of the load
during startup is swallowed — `startup_event` returns normally instead of
propagating the failure. -/
theorem C3_cex_startup_swallows_failure :
    startup_event (Except.error LoadErr.dataSourceNotFound) = Except.ok () := by
  rfl

/-- Claim C3 amended: `startup_event` catches every load failure and
returns normally, so the process serves traffic without a loaded table;
each data request then fails individually (`/data` maps the missing file
to a 404, `/search` to a 500). -/
theorem C3_amended_startup_continues :
    (∀ load : LoadResult, startup_event load = .ok ())
      ∧ (∀ page ps : Nat,
          get_data (.error LoadErr.dataSourceNotFound) page ps
            = .error ApiErr.fileNotFound)
      ∧ (∀ (col v : String) (page ps : Nat),
          search_data (.error LoadErr.dataSourceNotFound) col v page ps
            = .error ApiErr.internalError) := by
  refine ⟨fun load => ?_, fun page ps => rfl, fun col v page ps => rfl⟩
  cases load with
  | ok t => rfl
  | error e => rfl

/-- Claim C9 counterexample: a missing cell stringifies to "nan", but
inclusion is regex matching, not substring containment — the value "n.n"
is not a substring of "nan", yet the null-celled row is returned. -/
theorem C9_cex_null_matched_by_regex :
    searchFiltered tnull "name" "n.n" = [[("name", Cell.null)]]
      ∧ ¬ ciContains "n.n" "nan" :=
  ⟨by rfl, by decide⟩

/-- Claim C9 amended: rows whose cell in the search column is missing are
stringified to the literal text "nan" before matching, so such a row is
included exactly when the case-insensitive regex search of the value finds
a match in "nan"; in particular, an empty search value matches every row
of the table, including rows with a missing cell. -/
theorem C9_amended_null_is_nan (t : Table) (col v : String) (r : Row)
    (hr : r ∈ t.rows) (hnull : getCell r col = Cell.null) :
    cellStr Cell.null = "nan"
      ∧ (r ∈ searchFiltered t col v ↔ strContainsCI v "nan" = true)
      ∧ searchFiltered t col "" = t.rows := by
  refine ⟨rfl, ?_, ?_⟩
  · unfold searchFiltered
    rw [List.mem_filter]
    unfold rowMatches
    rw [hnull]
    exact ⟨fun h => h.2, fun h => ⟨hr, h⟩⟩
  · unfold searchFiltered
    apply List.filter_eq_self.mpr
    intro a _
    unfold rowMatches
    exact strContainsCI_empty_val _

/-- Witness for the amended C9 on the one-row table with a missing cell,
search value "na". -/
theorem C9_amended_null_is_nan_witness :
    cellStr Cell.null = "nan"
      ∧ ([("name", Cell.null)] ∈ searchFiltered tnull "name" "na"
          ↔ strContainsCI "na" "nan" = true)
      ∧ searchFiltered tnull "name" "" = tnull.rows :=
  C9_amended_null_is_nan tnull "name" "na" [("name", Cell.null)]
    (by decide) (by rfl)

end CsvApi
